import Mathlib

/-!
Shallow embedding of the Samsung s5p-tv HDMI interface driver
(`drivers/media/platform/s5p-tv/hdmi_drv.c`, linux-3.16.37).

Hardware interaction (memory-mapped register writes, delays, clock and
regulator operations, and calls into the HDMIPHY / MHL subdevices) is
modelled as a trace of `Event`s.  Fallible external collaborators (the PHY
subdevice, the optional MHL repeater, the regulator group, the PHY status
register) are modelled by an oracle `HdmiEnv` that fixes their replies.
Each driver operation is a pure Lean function from device state and oracle
to a result code, an event trace, and a new device state, translated
statement by statement from the C source.
-/

namespace HdmiDrv

/-- Symbolic register identifiers.  The numeric offsets live in
`regs-hdmi.h`, which is not among the provided sources; the claims depend
only on which register is addressed, so registers are modelled as an
enumeration named after the source macros. -/
inductive RegId where
  | HDMI_INTC_FLAG
  | HDMI_INTC_CON
  | HDMI_MODE_SEL
  | HDMI_CON_0
  | HDMI_CON_2
  | HDMI_BLUE_SCREEN_0
  | HDMI_BLUE_SCREEN_1
  | HDMI_BLUE_SCREEN_2
  | HDMI_H_BLANK_0
  | HDMI_H_SYNC_GEN_0
  | HDMI_VSYNC_POL
  | HDMI_V_BLANK_0
  | HDMI_V_SYNC_GEN_1_0
  | HDMI_INT_PRO_MODE
  | HDMI_H_V_LINE_0
  | HDMI_V_BLANK_F_0
  | HDMI_V_SYNC_GEN_2_0
  | HDMI_V_SYNC_GEN_3_0
  | HDMI_TG_CMD
  | HDMI_TG_H_FSZ_L
  | HDMI_TG_HACT_ST_L
  | HDMI_TG_HACT_SZ_L
  | HDMI_TG_VSYNC_L
  | HDMI_TG_VACT_ST_L
  | HDMI_TG_VACT_SZ_L
  | HDMI_TG_VSYNC_TOP_HDMI_L
  | HDMI_TG_FIELD_TOP_HDMI_L
  | HDMI_TG_V_FSZ_L
  | HDMI_TG_VSYNC2_L
  | HDMI_TG_FIELD_CHG_L
  | HDMI_TG_VACT_ST2_L
  | HDMI_TG_VSYNC_BOT_HDMI_L
  | HDMI_TG_FIELD_BOT_HDMI_L
  | HDMI_PHY_RSTOUT
  | HDMI_CORE_RSTOUT
  | HDMI_PHY_STATUS
deriving DecidableEq, Repr

/-- The clock handles of `struct hdmi_resources`. -/
inductive ClkId where
  | hdmi
  | sclk_hdmi
  | sclk_pixel
  | sclk_hdmiphy
  | hdmiphy
deriving DecidableEq, Repr

/-- One observable hardware-facing action of the driver. -/
inductive Event where
  /-- `hdmi_writeb`: one-byte register write. -/
  | writeb (reg : RegId) (v : Nat)
  /-- `hdmi_writebn`: an `n`-byte register write of `v` spread over byte lanes. -/
  | writebn (reg : RegId) (n : Nat) (v : Nat)
  /-- `hdmi_write_mask`: read-modify-write of the bits in `mask` from `v`. -/
  | writeMask (reg : RegId) (v : Nat) (mask : Nat)
  /-- `hdmi_read` of `HDMI_PHY_STATUS` returning `v` (the PHY-lock poll). -/
  | readPhyStatus (v : Nat)
  /-- `mdelay(ms)`. -/
  | mdelay (ms : Nat)
  /-- `v4l2_subdev_call(phy_sd, video, s_dv_timings, ...)`. -/
  | phySetTimings
  /-- `v4l2_subdev_call(phy_sd, video, s_stream, on)`. -/
  | phySetStream (enable : Bool)
  /-- `v4l2_subdev_call(mhl_sd, video, s_stream, on)` (repeater present). -/
  | mhlSetStream (enable : Bool)
  /-- `v4l2_subdev_call(mhl_sd, core, s_power, on)` (repeater present). -/
  | mhlSetPower (enable : Bool)
  /-- `clk_disable`. -/
  | clkDisable (c : ClkId)
  /-- `clk_set_parent c p`. -/
  | clkSetParent (c : ClkId) (p : ClkId)
  /-- `clk_enable`. -/
  | clkEnable (c : ClkId)
  /-- `regulator_bulk_enable`. -/
  | regulatorEnable
  /-- `regulator_bulk_disable`. -/
  | regulatorDisable
  /-- `hdmi_dumpregs(hdev, tag)`: diagnostic register snapshot (read-only). -/
  | dumpregs (tag : String)
deriving DecidableEq, Repr

/-- Modelled from the spec: bit constants from `regs-hdmi.h`, a header of
this driver that is not among the provided sources.  The spec fixes only
their roles (core-enable bit, timing-generator-enable bit, field-toggle
control bit, ready bit, ...); the values used here are distinct bits per
register, which is all the claims depend on. -/
def HDMI_EN : Nat := 1

/-- Modelled from the spec: timing-generator-enable bit of `HDMI_TG_CMD`. -/
def HDMI_TG_EN : Nat := 1

/-- Modelled from the spec: field-toggle control bit of `HDMI_TG_CMD`,
distinct from the timing-generator-enable bit. -/
def HDMI_TG_FIELD_EN : Nat := 2

/-- Modelled from the spec: blue-screen-enable bit of `HDMI_CON_0`,
distinct from the core-enable bit. -/
def HDMI_BLUE_SCR_EN : Nat := 32

/-- Modelled from the spec: the PHY-lock ready bit of `HDMI_PHY_STATUS`. -/
def HDMI_PHY_STATUS_READY : Nat := 1

/-- Modelled from the spec: PHY software reset bit of `HDMI_PHY_RSTOUT`. -/
def HDMI_PHY_SW_RSTOUT : Nat := 1

/-- Modelled from the spec: core software reset bit of `HDMI_CORE_RSTOUT`. -/
def HDMI_CORE_SW_RSTOUT : Nat := 1

/-- Modelled from the spec: global interrupt-enable bit of `HDMI_INTC_CON`. -/
def HDMI_INTC_EN_GLOBAL : Nat := 64

/-- Modelled from the spec: plug-edge interrupt-enable bit. -/
def HDMI_INTC_EN_HPD_PLUG : Nat := 8

/-- Modelled from the spec: unplug-edge interrupt-enable bit. -/
def HDMI_INTC_EN_HPD_UNPLUG : Nat := 4

/-- Modelled from the spec: DVI personality select bit of `HDMI_MODE_SEL`. -/
def HDMI_MODE_DVI_EN : Nat := 2

/-- Modelled from the spec: personality field mask of `HDMI_MODE_SEL`. -/
def HDMI_MODE_MASK : Nat := 3

/-- Modelled from the spec: DVI framing-preamble enable bit of `HDMI_CON_2`. -/
def HDMI_DVI_PERAMBLE_EN : Nat := 32

/-- Modelled from the spec: DVI band enable bit of `HDMI_CON_2`. -/
def HDMI_DVI_BAND_EN : Nat := 2

/-- `~0` as a 32-bit value, the `value` argument of the set-bits form of
`hdmi_write_mask`. -/
def allOnes : Nat := 0xffffffff

/-- `2^32`: u32 arithmetic in the source is arithmetic modulo this. -/
def U32 : Nat := 0x100000000

/-- 32-bit unsigned subtraction as performed by the C expression `a - b`
on `u32` operands. -/
def u32sub (a b : Nat) : Nat := (a % U32 + (U32 - b % U32)) % U32

/-- `struct hdmi_pulse`: a half-open interval `[beg, end)`.  The C field
`end` is a Lean keyword, hence `end_`. -/
structure hdmi_pulse where
  beg : Nat
  end_ : Nat
deriving DecidableEq, Repr

/-- `struct hdmi_timings`: register-level description of one video mode.
The two-element C arrays `vact[2]` and `vsyn[2]` are split into explicit
fields `vact0/vact1` and `vsyn0/vsyn1`.  All scalar fields are `u32` in
the source; `interlaced` is tested for C truthiness (`≠ 0`). -/
structure hdmi_timings where
  hact : hdmi_pulse
  hsyn_pol : Nat
  hsyn : hdmi_pulse
  interlaced : Nat
  vact0 : hdmi_pulse
  vact1 : hdmi_pulse
  vsyn_pol : Nat
  vsyn_off : Nat
  vsyn0 : hdmi_pulse
  vsyn1 : hdmi_pulse
deriving DecidableEq, Repr

/-- Byte-lane capacity of `hdmi_writebn`'s fallthrough `switch`: `n = 1`
writes one byte, `n = 2` two, `n = 3` three, anything else four. -/
def bytesMask : Nat → Nat
  | 1 => 0x100
  | 2 => 0x10000
  | 3 => 0x1000000
  | _ => U32

/-- `hdmi_writebn`: the value reaching the register is truncated to the
byte lanes actually written. -/
def hdmi_writebn (reg : RegId) (n : Nat) (v : Nat) : Event :=
  Event.writebn reg n (v % bytesMask n)

/-- `hdmi_writeb`: the value argument is a `u8`. -/
def hdmi_writeb (reg : RegId) (v : Nat) : Event :=
  Event.writeb reg (v % 0x100)

/-- `hdmi_write_mask`. -/
def hdmi_write_mask (reg : RegId) (v : Nat) (mask : Nat) : Event :=
  Event.writeMask reg v mask

/-- Core-sync block of `hdmi_timing_apply` (the part before the
"Timing generator registers" comment), statement by statement. -/
def coreSyncEvents (t : hdmi_timings) : List Event :=
  [hdmi_writebn .HDMI_H_BLANK_0 2 t.hact.beg,
   hdmi_writebn .HDMI_H_SYNC_GEN_0 3
     (((t.hsyn_pol <<< 20) ||| (t.hsyn.end_ <<< 10) ||| t.hsyn.beg) % U32),
   hdmi_writeb .HDMI_VSYNC_POL t.vsyn_pol,
   hdmi_writebn .HDMI_V_BLANK_0 3
     (((t.vact0.beg <<< 11) ||| t.vact0.end_) % U32),
   hdmi_writebn .HDMI_V_SYNC_GEN_1_0 3
     (((t.vsyn0.beg <<< 12) ||| t.vsyn0.end_) % U32)] ++
  (if t.interlaced ≠ 0 then
    [hdmi_writeb .HDMI_INT_PRO_MODE 1,
     hdmi_writebn .HDMI_H_V_LINE_0 3
       (((t.hact.end_ <<< 12) ||| t.vact1.end_) % U32),
     hdmi_writebn .HDMI_V_BLANK_F_0 3
       (((t.vact1.end_ <<< 11) ||| t.vact1.beg) % U32),
     hdmi_writebn .HDMI_V_SYNC_GEN_2_0 3
       (((t.vsyn1.beg <<< 12) ||| t.vsyn1.end_) % U32),
     hdmi_writebn .HDMI_V_SYNC_GEN_3_0 3
       (((((t.hsyn.beg + t.vsyn_off) % U32) <<< 12) |||
         ((t.hsyn.beg + t.vsyn_off) % U32)) % U32)]
  else
    [hdmi_writeb .HDMI_INT_PRO_MODE 0,
     hdmi_writebn .HDMI_H_V_LINE_0 3
       (((t.hact.end_ <<< 12) ||| t.vact0.end_) % U32)])

/-- Timing-generator block of `hdmi_timing_apply`. -/
def tgEvents (t : hdmi_timings) : List Event :=
  [hdmi_writebn .HDMI_TG_H_FSZ_L 2 t.hact.end_,
   hdmi_writebn .HDMI_TG_HACT_ST_L 2 t.hact.beg,
   hdmi_writebn .HDMI_TG_HACT_SZ_L 2 (u32sub t.hact.end_ t.hact.beg),
   hdmi_writebn .HDMI_TG_VSYNC_L 2 t.vsyn0.beg,
   hdmi_writebn .HDMI_TG_VACT_ST_L 2 t.vact0.beg,
   hdmi_writebn .HDMI_TG_VACT_SZ_L 2 (u32sub t.vact0.end_ t.vact0.beg),
   hdmi_writebn .HDMI_TG_VSYNC_TOP_HDMI_L 2 t.vsyn0.beg,
   hdmi_writebn .HDMI_TG_FIELD_TOP_HDMI_L 2 t.vsyn0.beg] ++
  (if t.interlaced ≠ 0 then
    [hdmi_write_mask .HDMI_TG_CMD allOnes HDMI_TG_FIELD_EN,
     hdmi_writebn .HDMI_TG_V_FSZ_L 2 t.vact1.end_,
     hdmi_writebn .HDMI_TG_VSYNC2_L 2 t.vsyn1.beg,
     hdmi_writebn .HDMI_TG_FIELD_CHG_L 2 t.vact0.end_,
     hdmi_writebn .HDMI_TG_VACT_ST2_L 2 t.vact1.beg,
     hdmi_writebn .HDMI_TG_VSYNC_BOT_HDMI_L 2 t.vsyn1.beg,
     hdmi_writebn .HDMI_TG_FIELD_BOT_HDMI_L 2 t.vsyn1.beg]
  else
    [hdmi_write_mask .HDMI_TG_CMD 0 HDMI_TG_FIELD_EN,
     hdmi_writebn .HDMI_TG_V_FSZ_L 2 t.vact0.end_])

/-- `hdmi_timing_apply`: the Register Programmer.  Pure in the model: it
returns the ordered list of register writes it performs. -/
def hdmi_timing_apply (t : hdmi_timings) : List Event :=
  coreSyncEvents t ++ tgEvents t


/-- `hdmi_timings_480p` (catalog table data, transcribed verbatim;
designated initializers leave the remaining C fields zero). -/
def hdmi_timings_480p : hdmi_timings :=
  { hact := { beg := 138, end_ := 858 },
    hsyn_pol := 1,
    hsyn := { beg := 16, end_ := 16 + 62 },
    interlaced := 0,
    vact0 := { beg := 42 + 3, end_ := 522 + 3 },
    vact1 := { beg := 0, end_ := 0 },
    vsyn_pol := 1,
    vsyn_off := 0,
    vsyn0 := { beg := 6 + 3, end_ := 12 + 3 },
    vsyn1 := { beg := 0, end_ := 0 } }

/-- `hdmi_timings_576p50`. -/
def hdmi_timings_576p50 : hdmi_timings :=
  { hact := { beg := 144, end_ := 864 },
    hsyn_pol := 1,
    hsyn := { beg := 12, end_ := 12 + 64 },
    interlaced := 0,
    vact0 := { beg := 44 + 5, end_ := 620 + 5 },
    vact1 := { beg := 0, end_ := 0 },
    vsyn_pol := 1,
    vsyn_off := 0,
    vsyn0 := { beg := 0 + 5, end_ := 5 + 5 },
    vsyn1 := { beg := 0, end_ := 0 } }

/-- `hdmi_timings_720p60`. -/
def hdmi_timings_720p60 : hdmi_timings :=
  { hact := { beg := 370, end_ := 1650 },
    hsyn_pol := 0,
    hsyn := { beg := 110, end_ := 110 + 40 },
    interlaced := 0,
    vact0 := { beg := 25 + 5, end_ := 745 + 5 },
    vact1 := { beg := 0, end_ := 0 },
    vsyn_pol := 0,
    vsyn_off := 0,
    vsyn0 := { beg := 0 + 5, end_ := 5 + 5 },
    vsyn1 := { beg := 0, end_ := 0 } }

/-- `hdmi_timings_720p50`. -/
def hdmi_timings_720p50 : hdmi_timings :=
  { hact := { beg := 700, end_ := 1980 },
    hsyn_pol := 0,
    hsyn := { beg := 440, end_ := 440 + 40 },
    interlaced := 0,
    vact0 := { beg := 25 + 5, end_ := 745 + 5 },
    vact1 := { beg := 0, end_ := 0 },
    vsyn_pol := 0,
    vsyn_off := 0,
    vsyn0 := { beg := 0 + 5, end_ := 5 + 5 },
    vsyn1 := { beg := 0, end_ := 0 } }

/-- `hdmi_timings_1080p24`. -/
def hdmi_timings_1080p24 : hdmi_timings :=
  { hact := { beg := 830, end_ := 2750 },
    hsyn_pol := 0,
    hsyn := { beg := 638, end_ := 638 + 44 },
    interlaced := 0,
    vact0 := { beg := 41 + 4, end_ := 1121 + 4 },
    vact1 := { beg := 0, end_ := 0 },
    vsyn_pol := 0,
    vsyn_off := 0,
    vsyn0 := { beg := 0 + 4, end_ := 5 + 4 },
    vsyn1 := { beg := 0, end_ := 0 } }

/-- `hdmi_timings_1080p60`. -/
def hdmi_timings_1080p60 : hdmi_timings :=
  { hact := { beg := 280, end_ := 2200 },
    hsyn_pol := 0,
    hsyn := { beg := 88, end_ := 88 + 44 },
    interlaced := 0,
    vact0 := { beg := 41 + 4, end_ := 1121 + 4 },
    vact1 := { beg := 0, end_ := 0 },
    vsyn_pol := 0,
    vsyn_off := 0,
    vsyn0 := { beg := 0 + 4, end_ := 5 + 4 },
    vsyn1 := { beg := 0, end_ := 0 } }

/-- `hdmi_timings_1080i60`. -/
def hdmi_timings_1080i60 : hdmi_timings :=
  { hact := { beg := 280, end_ := 2200 },
    hsyn_pol := 0,
    hsyn := { beg := 88, end_ := 88 + 44 },
    interlaced := 1,
    vact0 := { beg := 20 + 2, end_ := 560 + 2 },
    vact1 := { beg := 583 + 2, end_ := 1123 + 2 },
    vsyn_pol := 0,
    vsyn_off := 1100,
    vsyn0 := { beg := 0 + 2, end_ := 5 + 2 },
    vsyn1 := { beg := 562 + 2, end_ := 567 + 2 } }

/-- `hdmi_timings_1080i50`. -/
def hdmi_timings_1080i50 : hdmi_timings :=
  { hact := { beg := 720, end_ := 2640 },
    hsyn_pol := 0,
    hsyn := { beg := 528, end_ := 528 + 44 },
    interlaced := 1,
    vact0 := { beg := 20 + 2, end_ := 560 + 2 },
    vact1 := { beg := 583 + 2, end_ := 1123 + 2 },
    vsyn_pol := 0,
    vsyn_off := 1320,
    vsyn0 := { beg := 0 + 2, end_ := 5 + 2 },
    vsyn1 := { beg := 562 + 2, end_ := 567 + 2 } }

/-- `hdmi_timings_1080p50`. -/
def hdmi_timings_1080p50 : hdmi_timings :=
  { hact := { beg := 720, end_ := 2640 },
    hsyn_pol := 0,
    hsyn := { beg := 528, end_ := 528 + 44 },
    interlaced := 0,
    vact0 := { beg := 41 + 4, end_ := 1121 + 4 },
    vact1 := { beg := 0, end_ := 0 },
    vsyn_pol := 0,
    vsyn_off := 0,
    vsyn0 := { beg := 0 + 4, end_ := 5 + 4 },
    vsyn1 := { beg := 0, end_ := 0 } }

/-- Modelled from the spec: `struct v4l2_dv_timings` (V4L2 core header,
not among the provided sources).  `sig` abstracts the full BT timing
signature that `v4l2_match_dv_timings` compares; `flags` is `bt.flags`. -/
structure v4l2_dv_timings where
  sig : Nat
  flags : Nat
deriving DecidableEq, Repr

/-- Modelled from the spec: `V4L2_DV_FL_CAN_REDUCE_FPS`, the
"can-reduce-fps" capability bit inside `bt.flags`. -/
def V4L2_DV_FL_CAN_REDUCE_FPS : Nat := 2

/-- Modelled from the spec: `v4l2_match_dv_timings` (V4L2 core, not among
the provided sources) is an exact match on the full bit-timing signature,
ignoring the capability flags. -/
def v4l2_match_dv_timings (a b : v4l2_dv_timings) : Bool :=
  a.sig == b.sig

/-- Modelled from the spec: the ten CEA mode descriptors referenced by the
catalog table.  Distinct timing signatures; the 59.94-family descriptors
carry the can-reduce-fps capability bit. -/
def V4L2_DV_BT_CEA_720X480P59_94 : v4l2_dv_timings := ⟨0, V4L2_DV_FL_CAN_REDUCE_FPS⟩

/-- Modelled from the spec: CEA 720x576p50 descriptor. -/
def V4L2_DV_BT_CEA_720X576P50 : v4l2_dv_timings := ⟨1, 0⟩

/-- Modelled from the spec: CEA 1280x720p50 descriptor. -/
def V4L2_DV_BT_CEA_1280X720P50 : v4l2_dv_timings := ⟨2, 0⟩

/-- Modelled from the spec: CEA 1280x720p60 descriptor. -/
def V4L2_DV_BT_CEA_1280X720P60 : v4l2_dv_timings := ⟨3, V4L2_DV_FL_CAN_REDUCE_FPS⟩

/-- Modelled from the spec: CEA 1920x1080p24 descriptor. -/
def V4L2_DV_BT_CEA_1920X1080P24 : v4l2_dv_timings := ⟨4, V4L2_DV_FL_CAN_REDUCE_FPS⟩

/-- Modelled from the spec: CEA 1920x1080p30 descriptor. -/
def V4L2_DV_BT_CEA_1920X1080P30 : v4l2_dv_timings := ⟨5, V4L2_DV_FL_CAN_REDUCE_FPS⟩

/-- Modelled from the spec: CEA 1920x1080p50 descriptor. -/
def V4L2_DV_BT_CEA_1920X1080P50 : v4l2_dv_timings := ⟨6, 0⟩

/-- Modelled from the spec: CEA 1920x1080i50 descriptor. -/
def V4L2_DV_BT_CEA_1920X1080I50 : v4l2_dv_timings := ⟨7, 0⟩

/-- Modelled from the spec: CEA 1920x1080i60 descriptor. -/
def V4L2_DV_BT_CEA_1920X1080I60 : v4l2_dv_timings := ⟨8, V4L2_DV_FL_CAN_REDUCE_FPS⟩

/-- Modelled from the spec: CEA 1920x1080p60 descriptor. -/
def V4L2_DV_BT_CEA_1920X1080P60 : v4l2_dv_timings := ⟨9, V4L2_DV_FL_CAN_REDUCE_FPS⟩

/-- One row of the anonymous catalog table `hdmi_timings[]`. -/
structure hdmi_timings_entry where
  reduced_fps : Bool
  dv_timings : v4l2_dv_timings
  timings : hdmi_timings
deriving DecidableEq, Repr

/-- The catalog table `hdmi_timings[]` (named apart from the structure,
which C keeps in a separate namespace), in source order. -/
def hdmi_timings_catalog : List hdmi_timings_entry :=
  [⟨false, V4L2_DV_BT_CEA_720X480P59_94, hdmi_timings_480p⟩,
   ⟨false, V4L2_DV_BT_CEA_720X576P50,    hdmi_timings_576p50⟩,
   ⟨false, V4L2_DV_BT_CEA_1280X720P50,   hdmi_timings_720p50⟩,
   ⟨true,  V4L2_DV_BT_CEA_1280X720P60,   hdmi_timings_720p60⟩,
   ⟨false, V4L2_DV_BT_CEA_1920X1080P24,  hdmi_timings_1080p24⟩,
   ⟨false, V4L2_DV_BT_CEA_1920X1080P30,  hdmi_timings_1080p60⟩,
   ⟨false, V4L2_DV_BT_CEA_1920X1080P50,  hdmi_timings_1080p50⟩,
   ⟨false, V4L2_DV_BT_CEA_1920X1080I50,  hdmi_timings_1080i50⟩,
   ⟨false, V4L2_DV_BT_CEA_1920X1080I60,  hdmi_timings_1080i60⟩,
   ⟨false, V4L2_DV_BT_CEA_1920X1080P60,  hdmi_timings_1080p60⟩]

/-- The device-state fields the claims are about: the Mode Config State of
`struct hdmi_device` (`cur_conf`, `cur_conf_dirty`, `cur_timings`).
`cur_conf` is a pointer into the static catalog in C and is always set
from probe onwards, so it is stored by value here; `cur_conf_dirty` is a
0/1 `int` flag, modelled as `Bool`. -/
structure hdmi_device where
  cur_conf : hdmi_timings
  cur_conf_dirty : Bool
  cur_timings : v4l2_dv_timings
deriving DecidableEq, Repr

/-- Oracle fixing the replies of the external collaborators: result of
the PHY's `s_dv_timings`, results of PHY/MHL `s_stream` and MHL
`s_power` per direction, presence of the optional MHL repeater, the
successive values read from `HDMI_PHY_STATUS` (indexed by read count),
and the `regulator_bulk_enable` result. -/
structure HdmiEnv where
  phy_s_dv_timings : Int
  phy_s_stream : Bool → Int
  mhl_present : Bool
  mhl_s_stream : Bool → Int
  mhl_s_power : Bool → Int
  phy_status : Nat → Nat
  regulator_enable_ret : Int

/-- Result of one driver operation: return code (0 or a negative errno),
event trace, and the device state afterwards. -/
structure DriverResult where
  ret : Int
  trace : List Event
  dev : hdmi_device
deriving Repr

/-- `hdmi_reg_init`: baseline register state, statement by statement. -/
def hdmi_reg_init : List Event :=
  [hdmi_write_mask .HDMI_INTC_CON allOnes
     (HDMI_INTC_EN_GLOBAL ||| HDMI_INTC_EN_HPD_PLUG ||| HDMI_INTC_EN_HPD_UNPLUG),
   hdmi_write_mask .HDMI_MODE_SEL HDMI_MODE_DVI_EN HDMI_MODE_MASK,
   hdmi_write_mask .HDMI_CON_2 allOnes (HDMI_DVI_PERAMBLE_EN ||| HDMI_DVI_BAND_EN),
   hdmi_write_mask .HDMI_CON_0 0 HDMI_BLUE_SCR_EN,
   hdmi_writeb .HDMI_BLUE_SCREEN_0 0x12,
   hdmi_writeb .HDMI_BLUE_SCREEN_1 0x34,
   hdmi_writeb .HDMI_BLUE_SCREEN_2 0x56]

/-- The PHY reset pulse at the start of `hdmi_conf_apply`: assert
`HDMI_PHY_SW_RSTOUT`, hold 10 ms, release, hold 10 ms. -/
def phyResetEvents : List Event :=
  [hdmi_write_mask .HDMI_PHY_RSTOUT allOnes HDMI_PHY_SW_RSTOUT,
   Event.mdelay 10,
   hdmi_write_mask .HDMI_PHY_RSTOUT 0 HDMI_PHY_SW_RSTOUT,
   Event.mdelay 10]

/-- The core reset pulse of `hdmi_conf_apply`: deassert
`HDMI_CORE_SW_RSTOUT`, hold 10 ms, reassert, hold 10 ms. -/
def coreResetEvents : List Event :=
  [hdmi_write_mask .HDMI_CORE_RSTOUT 0 HDMI_CORE_SW_RSTOUT,
   Event.mdelay 10,
   hdmi_write_mask .HDMI_CORE_RSTOUT allOnes HDMI_CORE_SW_RSTOUT,
   Event.mdelay 10]

/-- `hdmi_conf_apply`: skip if not dirty; PHY reset pulse; forward
`cur_timings` to the PHY (propagating its error and leaving the state,
dirty flag included, untouched); core reset pulse; `hdmi_reg_init`;
`hdmi_timing_apply`; clear the dirty flag. -/
def hdmi_conf_apply (hdev : hdmi_device) (env : HdmiEnv) : DriverResult :=
  if hdev.cur_conf_dirty = false then ⟨0, [], hdev⟩
  else if env.phy_s_dv_timings ≠ 0 then
    ⟨env.phy_s_dv_timings, phyResetEvents ++ [Event.phySetTimings], hdev⟩
  else
    ⟨0,
     phyResetEvents ++ [Event.phySetTimings] ++ coreResetEvents ++
       hdmi_reg_init ++ hdmi_timing_apply hdev.cur_conf,
     { hdev with cur_conf_dirty := false }⟩

/-- The PHY-lock poll of `hdmi_streamon`:
`for (tries = 100; tries; --tries)` reading `HDMI_PHY_STATUS`, breaking
on the ready bit, else `mdelay(1)`.  `k` counts reads already made (it
indexes the oracle); the recursion is on the remaining tries, so the
loop is structurally bounded. -/
def pollPhy (env : HdmiEnv) (k : Nat) : Nat → Bool × List Event
  | 0 => (false, [])
  | n + 1 =>
    let v := env.phy_status k
    if v &&& HDMI_PHY_STATUS_READY ≠ 0 then
      (true, [Event.readPhyStatus v])
    else
      let r := pollPhy env (k + 1) n
      (r.1, Event.readPhyStatus v :: Event.mdelay 1 :: r.2)

/-- The tail of a successful `hdmi_streamon`: switch `sclk_hdmi` from the
pixel parent to the PHY-recovered parent (disable, reparent, enable),
then set the core-enable and timing-generator-enable bits. -/
def streamonTail : List Event :=
  [Event.clkDisable .sclk_hdmi,
   Event.clkSetParent .sclk_hdmi .sclk_hdmiphy,
   Event.clkEnable .sclk_hdmi,
   hdmi_write_mask .HDMI_CON_0 allOnes HDMI_EN,
   hdmi_write_mask .HDMI_TG_CMD allOnes HDMI_TG_EN,
   Event.dumpregs "streamon"]

/-- `hdmi_streamon`, statement by statement.  The guard
`if (hdev->mhl_sd && ret)` of the source collapses to
`mhl_present ∧ result ≠ 0` because when the repeater is absent its
(ignored) `v4l2_subdev_call` result is `-ENODEV` and no call is made. -/
def hdmi_streamon (hdev : hdmi_device) (env : HdmiEnv) : DriverResult :=
  let a := hdmi_conf_apply hdev env
  if a.ret ≠ 0 then a
  else
    let tr0 := a.trace ++ [Event.phySetStream true]
    if env.phy_s_stream true ≠ 0 then ⟨env.phy_s_stream true, tr0, a.dev⟩
    else
      let p := pollPhy env 0 100
      if p.1 = false then
        ⟨-5, tr0 ++ p.2 ++
             [Event.phySetStream false, Event.dumpregs "hdmiphy - s_stream"],
         a.dev⟩
      else
        let tr1 := tr0 ++ p.2 ++
          (if env.mhl_present then [Event.mhlSetStream true] else [])
        if env.mhl_present ∧ env.mhl_s_stream true ≠ 0 then
          ⟨-5, tr1 ++ [Event.phySetStream false, Event.dumpregs "mhl - s_stream"],
           a.dev⟩
        else
          ⟨0, tr1 ++ streamonTail, a.dev⟩

/-- `hdmi_streamoff`: clear the enable bits, switch `sclk_hdmi` back to
the pixel parent, stop the repeater (when present) and the PHY with
their results ignored, dump, return 0. -/
def hdmi_streamoff (hdev : hdmi_device) (env : HdmiEnv) : DriverResult :=
  ⟨0,
   [hdmi_write_mask .HDMI_CON_0 0 HDMI_EN,
    hdmi_write_mask .HDMI_TG_CMD 0 HDMI_TG_EN,
    Event.clkDisable .sclk_hdmi,
    Event.clkSetParent .sclk_hdmi .sclk_pixel,
    Event.clkEnable .sclk_hdmi] ++
   (if env.mhl_present then [Event.mhlSetStream false] else []) ++
   [Event.phySetStream false, Event.dumpregs "streamoff"],
   hdev⟩

/-- `hdmi_s_dv_timings`: first-match lookup over the catalog table; on no
match return `-EINVAL` with the device untouched; on a match store the
entry's timings, mark dirty, store the caller's descriptor, clearing its
can-reduce-fps bit (`flags &= ~V4L2_DV_FL_CAN_REDUCE_FPS`, a u32
operation) unless the entry allows reduced fps. -/
def hdmi_s_dv_timings (hdev : hdmi_device) (timings : v4l2_dv_timings) :
    Int × hdmi_device :=
  match hdmi_timings_catalog.find?
      (fun e => v4l2_match_dv_timings e.dv_timings timings) with
  | none => (-22, hdev)
  | some e =>
    (0, { hdev with
          cur_conf := e.timings,
          cur_conf_dirty := true,
          cur_timings :=
            if e.reduced_fps then timings
            else { timings with flags := timings.flags &&& 0xfffffffd } })

/-- `hdmi_g_dv_timings`: returns the stored descriptor verbatim. -/
def hdmi_g_dv_timings (hdev : hdmi_device) : v4l2_dv_timings :=
  hdev.cur_timings

/-- `hdmi_resource_poweron`: regulator group first (aborting on its
failure with no clock touched), then PHY-power clock, pixel parent,
shared clock. -/
def hdmi_resource_poweron (env : HdmiEnv) : Int × List Event :=
  if env.regulator_enable_ret < 0 then
    (env.regulator_enable_ret, [Event.regulatorEnable])
  else
    (0, [Event.regulatorEnable,
         Event.clkEnable .hdmiphy,
         Event.clkSetParent .sclk_hdmi .sclk_pixel,
         Event.clkEnable .sclk_hdmi])

/-- `hdmi_resource_poweroff`: exact mirror order. -/
def hdmi_resource_poweroff : List Event :=
  [Event.clkDisable .sclk_hdmi,
   Event.clkDisable .hdmiphy,
   Event.regulatorDisable]

/-- `hdmi_runtime_suspend`: best-effort repeater power-off, resource
power-off, and mark the configuration dirty.  Always returns 0. -/
def hdmi_runtime_suspend (hdev : hdmi_device) (env : HdmiEnv) : DriverResult :=
  ⟨0,
   (if env.mhl_present then [Event.mhlSetPower false] else []) ++
     hdmi_resource_poweroff,
   { hdev with cur_conf_dirty := true }⟩

/-- `hdmi_runtime_resume`: resource power-on (propagating its failure
untouched), then repeater power-on; if a repeater is configured and that
fails, undo with resource power-off and propagate.  The dirty flag is
never written. -/
def hdmi_runtime_resume (hdev : hdmi_device) (env : HdmiEnv) : DriverResult :=
  let p := hdmi_resource_poweron env
  if p.1 < 0 then ⟨p.1, p.2, hdev⟩
  else
    let tr := p.2 ++ (if env.mhl_present then [Event.mhlSetPower true] else [])
    if env.mhl_present ∧ env.mhl_s_power true ≠ 0 then
      ⟨env.mhl_s_power true, tr ++ hdmi_resource_poweroff, hdev⟩
    else
      ⟨0, tr, hdev⟩

/-- The Mode Config State set up by `hdmi_probe`
(`HDMI_DEFAULT_TIMINGS_IDX = 0`, dirty). -/
def hdmi_probe_state : hdmi_device :=
  { cur_conf := hdmi_timings_480p,
    cur_conf_dirty := true,
    cur_timings := V4L2_DV_BT_CEA_720X480P59_94 }


/-- The spec's synthetic progressive mode: `hactive = {100, 900}`,
`vactive[0] = {10, 510}`. -/
def tSynthProg : hdmi_timings :=
  { hact := { beg := 100, end_ := 900 },
    hsyn_pol := 0,
    hsyn := { beg := 40, end_ := 60 },
    interlaced := 0,
    vact0 := { beg := 10, end_ := 510 },
    vact1 := { beg := 0, end_ := 0 },
    vsyn_pol := 0,
    vsyn_off := 0,
    vsyn0 := { beg := 3, end_ := 8 },
    vsyn1 := { beg := 0, end_ := 0 } }

/-- The same shape, interlaced, with `vsyn_off = V = 7`
(so `hsyn.beg + vsyn_off = 47`). -/
def tSynthInt : hdmi_timings :=
  { tSynthProg with
    interlaced := 1,
    vsyn_off := 7,
    vact1 := { beg := 520, end_ := 1020 },
    vsyn1 := { beg := 515, end_ := 520 } }

/-- Oracle where every external call succeeds, no repeater is present,
and the PHY never reports lock. -/
def envNeverLock : HdmiEnv :=
  { phy_s_dv_timings := 0,
    phy_s_stream := fun _ => 0,
    mhl_present := false,
    mhl_s_stream := fun _ => 0,
    mhl_s_power := fun _ => 0,
    phy_status := fun _ => 0,
    regulator_enable_ret := 0 }

/-- Oracle where every external call succeeds and the PHY locks at once. -/
def envAllOk : HdmiEnv :=
  { envNeverLock with phy_status := fun _ => 1 }

/-- Oracle with PHY lock, a repeater present, and a failing repeater
stream-start. -/
def envMhlFail : HdmiEnv :=
  { envAllOk with mhl_present := true, mhl_s_stream := fun _ => -19 }

/-- Oracle whose PHY rejects the forwarded timings with `-EINVAL`. -/
def envPhyReject : HdmiEnv :=
  { envAllOk with phy_s_dv_timings := -22 }

/-! ### Helper predicates over traces -/

/-- Does the event reparent a clock? -/
def isClkReparent : Event → Bool
  | .clkSetParent _ _ => true
  | _ => false

/-- Does the event set (write as 1) the core-enable bit `HDMI_EN` of
`HDMI_CON_0`? -/
def isCoreEnable : Event → Bool
  | .writeMask .HDMI_CON_0 v m => (v &&& m &&& HDMI_EN) != 0
  | _ => false

/-- Does the event set the timing-generator-enable bit `HDMI_TG_EN` of
`HDMI_TG_CMD`? -/
def isTgEnable : Event → Bool
  | .writeMask .HDMI_TG_CMD v m => (v &&& m &&& HDMI_TG_EN) != 0
  | _ => false

/-- Any of the three stream-setup actions whose ordering the spec
constrains: clock reparenting, core enable, timing-generator enable. -/
def isStreamSetup (e : Event) : Bool :=
  isClkReparent e || isCoreEnable e || isTgEnable e

/-- Is the event a read of `HDMI_PHY_STATUS` (one sample of the PHY-lock
poll)? -/
def isPhyStatusRead : Event → Bool
  | .readPhyStatus _ => true
  | _ => false

/-- Number of PHY-status samples in a trace. -/
def countReads (l : List Event) : Nat := l.countP isPhyStatusRead

lemma countReads_append (l1 l2 : List Event) :
    countReads (l1 ++ l2) = countReads l1 + countReads l2 :=
  List.countP_append _ _ _

lemma all_no_setup_of (l : List Event)
    (h : l.all (fun x => !(isStreamSetup x)) = true) :
    ∀ e ∈ l, isStreamSetup e = false := by
  intro e he
  have := List.all_eq_true.mp h e he
  simpa using this

lemma timing_apply_no_setup (t : hdmi_timings) :
    ∀ e ∈ hdmi_timing_apply t, isStreamSetup e = false := by
  by_cases hi : t.interlaced ≠ 0 <;>
    simp [hdmi_timing_apply, coreSyncEvents, tgEvents, hi, hdmi_writebn,
      hdmi_writeb, hdmi_write_mask, isStreamSetup, isClkReparent,
      isCoreEnable, isTgEnable, HDMI_TG_FIELD_EN, HDMI_TG_EN, allOnes]

lemma timing_apply_no_reads (t : hdmi_timings) :
    countReads (hdmi_timing_apply t) = 0 := by
  by_cases hi : t.interlaced ≠ 0 <;>
    simp [hdmi_timing_apply, coreSyncEvents, tgEvents, hi, hdmi_writebn,
      hdmi_writeb, hdmi_write_mask, countReads, isPhyStatusRead]

lemma conf_apply_no_setup (s : hdmi_device) (env : HdmiEnv) :
    ∀ e ∈ (hdmi_conf_apply s env).trace, isStreamSetup e = false := by
  have h1 := all_no_setup_of phyResetEvents (by decide)
  have h2 := all_no_setup_of [Event.phySetTimings] (by decide)
  have h3 := all_no_setup_of coreResetEvents (by decide)
  have h4 := all_no_setup_of hdmi_reg_init (by decide)
  unfold hdmi_conf_apply
  split
  · simp
  · split
    · intro e he
      rcases List.mem_append.mp he with h | h
      · exact h1 e h
      · exact h2 e h
    · intro e he
      simp only [List.append_assoc, List.mem_append] at he
      rcases he with h | h | h | h | h
      · exact h1 e h
      · exact h2 e h
      · exact h3 e h
      · exact h4 e h
      · exact timing_apply_no_setup _ e h

lemma conf_apply_no_reads (s : hdmi_device) (env : HdmiEnv) :
    countReads (hdmi_conf_apply s env).trace = 0 := by
  unfold hdmi_conf_apply
  split
  · simp [countReads]
  · split
    · show countReads (phyResetEvents ++ [Event.phySetTimings]) = 0
      decide
    · show countReads (phyResetEvents ++ [Event.phySetTimings] ++
        coreResetEvents ++ hdmi_reg_init ++ hdmi_timing_apply s.cur_conf) = 0
      simp only [countReads_append, timing_apply_no_reads]
      decide

lemma pollPhy_reads_le (env : HdmiEnv) (k n : Nat) :
    countReads (pollPhy env k n).2 ≤ n := by
  induction n generalizing k with
  | zero => simp [pollPhy, countReads]
  | succ n ih =>
    simp only [pollPhy]
    split
    · simp [countReads, isPhyStatusRead]
    · simpa [countReads, isPhyStatusRead, List.countP_cons] using
        Nat.add_le_add_right (ih (k + 1)) 1

lemma pollPhy_no_setup (env : HdmiEnv) (k n : Nat) :
    ∀ e ∈ (pollPhy env k n).2, isStreamSetup e = false := by
  induction n generalizing k with
  | zero => simp [pollPhy]
  | succ n ih =>
    simp only [pollPhy]
    split
    · simp [isStreamSetup, isClkReparent, isCoreEnable, isTgEnable]
    · intro e he
      rcases he with _ | ⟨_, (_ | ⟨_, hm⟩)⟩
      · simp [isStreamSetup, isClkReparent, isCoreEnable, isTgEnable]
      · simp [isStreamSetup, isClkReparent, isCoreEnable, isTgEnable]
      · exact ih (k + 1) e hm

lemma pollPhy_never_ready (env : HdmiEnv) (k n : Nat)
    (h : ∀ j, env.phy_status j &&& HDMI_PHY_STATUS_READY = 0) :
    (pollPhy env k n).1 = false ∧ countReads (pollPhy env k n).2 = n := by
  induction n generalizing k with
  | zero => simp [pollPhy, countReads]
  | succ n ih =>
    have hk := h k
    simp only [pollPhy, hk]
    simpa [countReads, isPhyStatusRead, List.countP_cons] using
      ih (k + 1)

lemma pollPhy_locked_read (env : HdmiEnv) (k n : Nat)
    (h : (pollPhy env k n).1 = true) :
    ∃ v, Event.readPhyStatus v ∈ (pollPhy env k n).2 ∧
      v &&& HDMI_PHY_STATUS_READY ≠ 0 := by
  induction n generalizing k with
  | zero => simp [pollPhy] at h
  | succ n ih =>
    by_cases hv : env.phy_status k &&& HDMI_PHY_STATUS_READY = 0
    · simp only [pollPhy] at h ⊢
      rw [if_neg (by simp [hv])] at h ⊢
      obtain ⟨v, hm, hb⟩ := ih (k + 1) (by simpa using h)
      exact ⟨v, by simp [hm], hb⟩
    · refine ⟨env.phy_status k, ?_, hv⟩
      simp [pollPhy, hv]

lemma lor12_eq (x : Nat) (h : x < 4096) : (x <<< 12) ||| x = 4096 * x + x := by
  have h1 : x <<< 12 = 4096 * x := by
    rw [Nat.shiftLeft_eq, Nat.mul_comm]
  have h2 := (Nat.mul_add_lt_is_or (i := 12) (b := x) (by simpa using h) x).symm
  rw [h1]
  simpa using h2

/-- C1: for every `hdmi_timings` (with the spec's pulse invariant and the
register-width bounds), `hdmi_timing_apply` writes the timing-generator
active-window-size registers `HDMI_TG_HACT_SZ_L` / `HDMI_TG_VACT_SZ_L` as
`end - begin` of the corresponding pulse, and when interlaced the single
written `HDMI_V_SYNC_GEN_3_0` value carries `hsyn.beg + vsyn_off`
identically in both of its 12-bit halves. -/
theorem hdmi_timing_apply_active_window (t : hdmi_timings)
    (h1 : t.hact.beg ≤ t.hact.end_) (h2 : t.hact.end_ < 0x10000)
    (h3 : t.vact0.beg ≤ t.vact0.end_) (h4 : t.vact0.end_ < 0x10000)
    (h5 : t.hsyn.beg + t.vsyn_off < 0x1000) :
    Event.writebn .HDMI_TG_HACT_SZ_L 2 (t.hact.end_ - t.hact.beg) ∈
      hdmi_timing_apply t ∧
    Event.writebn .HDMI_TG_VACT_SZ_L 2 (t.vact0.end_ - t.vact0.beg) ∈
      hdmi_timing_apply t ∧
    (t.interlaced ≠ 0 →
      (∃ v, Event.writebn .HDMI_V_SYNC_GEN_3_0 3 v ∈ hdmi_timing_apply t) ∧
      (∀ v, Event.writebn .HDMI_V_SYNC_GEN_3_0 3 v ∈ hdmi_timing_apply t →
        v % 0x1000 = t.hsyn.beg + t.vsyn_off ∧
        v / 0x1000 % 0x1000 = t.hsyn.beg + t.vsyn_off)) := by
  have hbm2 : bytesMask 2 = 0x10000 := rfl
  have hhact : u32sub t.hact.end_ t.hact.beg % bytesMask 2 =
      t.hact.end_ - t.hact.beg := by
    simp only [u32sub, U32, hbm2]
    omega
  have hvact : u32sub t.vact0.end_ t.vact0.beg % bytesMask 2 =
      t.vact0.end_ - t.vact0.beg := by
    simp only [u32sub, U32, hbm2]
    omega
  refine ⟨?_, ?_, ?_⟩
  · apply List.mem_append_right
    unfold tgEvents
    apply List.mem_append_left
    simp [hdmi_writebn, hhact]
  · apply List.mem_append_right
    unfold tgEvents
    apply List.mem_append_left
    simp [hdmi_writebn, hvact]
  · intro hi
    have hxlt : t.hsyn.beg + t.vsyn_off < 4096 := h5
    have hx : (t.hsyn.beg + t.vsyn_off) % U32 =
        t.hsyn.beg + t.vsyn_off :=
      Nat.mod_eq_of_lt (lt_trans hxlt (by norm_num [U32]))
    have hval : ((((t.hsyn.beg + t.vsyn_off) % U32) <<< 12) |||
        ((t.hsyn.beg + t.vsyn_off) % U32)) % U32 % bytesMask 3 =
        4096 * (t.hsyn.beg + t.vsyn_off) + (t.hsyn.beg + t.vsyn_off) := by
      rw [hx, lor12_eq _ hxlt]
      have hbm3 : bytesMask 3 = 0x1000000 := rfl
      simp only [U32, hbm3]
      omega
    constructor
    · refine ⟨4096 * (t.hsyn.beg + t.vsyn_off) + (t.hsyn.beg + t.vsyn_off), ?_⟩
      apply List.mem_append_left
      simp [coreSyncEvents, hi, hdmi_writebn, hdmi_writeb, hval]
    · intro v hv
      simp [hdmi_timing_apply, coreSyncEvents, tgEvents, hi,
        hdmi_writebn, hdmi_writeb, hdmi_write_mask] at hv
      rw [hval] at hv
      subst hv
      refine ⟨by omega, ?_⟩
      have hdv : (4096 * (t.hsyn.beg + t.vsyn_off) + (t.hsyn.beg + t.vsyn_off)) /
          4096 = t.hsyn.beg + t.vsyn_off := by omega
      rw [hdv]
      omega


/-- Witness for C1: at the spec's synthetic progressive mode the written
active-window sizes are 800 and 500, and at the interlaced variant both
12-bit halves of the written vsync-transition value equal
`hsyn.beg + vsyn_off = 47`. -/
theorem hdmi_timing_apply_active_window_witness :
    Event.writebn .HDMI_TG_HACT_SZ_L 2 800 ∈ hdmi_timing_apply tSynthProg ∧
    Event.writebn .HDMI_TG_VACT_SZ_L 2 500 ∈ hdmi_timing_apply tSynthProg ∧
    (∃ v, Event.writebn .HDMI_V_SYNC_GEN_3_0 3 v ∈ hdmi_timing_apply tSynthInt ∧
      v % 0x1000 = 47 ∧ v / 0x1000 % 0x1000 = 47) := by
  obtain ⟨hp1, hp2, -⟩ := hdmi_timing_apply_active_window tSynthProg
    (by decide) (by decide) (by decide) (by decide) (by decide)
  obtain ⟨-, -, hint⟩ := hdmi_timing_apply_active_window tSynthInt
    (by decide) (by decide) (by decide) (by decide) (by decide)
  obtain ⟨⟨v, hv⟩, hall⟩ := hint (by decide)
  exact ⟨hp1, hp2, ⟨v, hv, hall v hv⟩⟩


lemma conf_apply_ret_ok (s : hdmi_device) (env : HdmiEnv)
    (h : env.phy_s_dv_timings = 0) : (hdmi_conf_apply s env).ret = 0 := by
  unfold hdmi_conf_apply
  split
  · rfl
  · split
    · simp_all
    · rfl

/-- C2: the PHY-lock wait of `hdmi_streamon` samples `HDMI_PHY_STATUS`
at most 100 times (at 1 ms intervals) in every execution; and when the
ready bit is never observed (with mode-apply and the PHY stream-start
succeeding so the poll is reached), `hdmi_streamon` performs exactly 100
samples, issues a best-effort stop to the PHY, takes a diagnostic
snapshot, and returns `-EIO` (= -5). -/
theorem hdmi_streamon_phy_lock_timeout (s : hdmi_device) (env : HdmiEnv) :
    countReads (hdmi_streamon s env).trace ≤ 100 ∧
    (env.phy_s_dv_timings = 0 → env.phy_s_stream true = 0 →
      (∀ k, env.phy_status k &&& HDMI_PHY_STATUS_READY = 0) →
      (hdmi_streamon s env).ret = -5 ∧
      countReads (hdmi_streamon s env).trace = 100 ∧
      Event.phySetStream false ∈ (hdmi_streamon s env).trace ∧
      Event.dumpregs "hdmiphy - s_stream" ∈ (hdmi_streamon s env).trace) := by
  have hc := conf_apply_no_reads s env
  have hpoll := pollPhy_reads_le env 0 100
  have c1 : countReads [Event.phySetStream true] = 0 := by decide
  have c2 : countReads
      [Event.phySetStream false, Event.dumpregs "hdmiphy - s_stream"] = 0 := by
    decide
  have c3 : countReads
      [Event.phySetStream false, Event.dumpregs "mhl - s_stream"] = 0 := by
    decide
  have c4 : countReads streamonTail = 0 := by decide
  have c5 : countReads [Event.mhlSetStream true] = 0 := by decide
  have c6 : countReads ([] : List Event) = 0 := by decide
  constructor
  · simp only [hdmi_streamon]
    split
    · omega
    · split
      · show countReads ((hdmi_conf_apply s env).trace ++
          [Event.phySetStream true]) ≤ 100
        rw [countReads_append]
        omega
      · split
        · show countReads ((hdmi_conf_apply s env).trace ++
            [Event.phySetStream true] ++ (pollPhy env 0 100).2 ++
            [Event.phySetStream false, Event.dumpregs "hdmiphy - s_stream"]) ≤
            100
          rw [countReads_append, countReads_append, countReads_append]
          omega
        · split
          · show countReads ((hdmi_conf_apply s env).trace ++
              [Event.phySetStream true] ++ (pollPhy env 0 100).2 ++
              (if env.mhl_present then [Event.mhlSetStream true] else []) ++
              [Event.phySetStream false, Event.dumpregs "mhl - s_stream"]) ≤
              100
            rw [countReads_append, countReads_append, countReads_append,
              countReads_append]
            by_cases hm : env.mhl_present = true <;> simp [hm, c5, c6] <;> omega
          · show countReads ((hdmi_conf_apply s env).trace ++
              [Event.phySetStream true] ++ (pollPhy env 0 100).2 ++
              (if env.mhl_present then [Event.mhlSetStream true] else []) ++
              streamonTail) ≤ 100
            rw [countReads_append, countReads_append, countReads_append,
              countReads_append]
            by_cases hm : env.mhl_present = true <;> simp [hm, c5, c6] <;> omega
  · intro h0 h1 h2
    have ha := conf_apply_ret_ok s env h0
    have hp := pollPhy_never_ready env 0 100 h2
    have htrace : hdmi_streamon s env =
        ⟨-5,
         (hdmi_conf_apply s env).trace ++ [Event.phySetStream true] ++
           (pollPhy env 0 100).2 ++
           [Event.phySetStream false, Event.dumpregs "hdmiphy - s_stream"],
         (hdmi_conf_apply s env).dev⟩ := by
      simp only [hdmi_streamon, ha, h1, hp.1]
      simp
    rw [htrace]
    refine ⟨rfl, ?_, ?_, ?_⟩
    · show countReads ((hdmi_conf_apply s env).trace ++
        [Event.phySetStream true] ++ (pollPhy env 0 100).2 ++
        [Event.phySetStream false, Event.dumpregs "hdmiphy - s_stream"]) = 100
      rw [countReads_append, countReads_append, countReads_append]
      omega
    · show Event.phySetStream false ∈
        (hdmi_conf_apply s env).trace ++ [Event.phySetStream true] ++
          (pollPhy env 0 100).2 ++
          [Event.phySetStream false, Event.dumpregs "hdmiphy - s_stream"]
      simp
    · show Event.dumpregs "hdmiphy - s_stream" ∈
        (hdmi_conf_apply s env).trace ++ [Event.phySetStream true] ++
          (pollPhy env 0 100).2 ++
          [Event.phySetStream false, Event.dumpregs "hdmiphy - s_stream"]
      simp

/-- Witness for C2: on the probe-time state with an oracle whose PHY
never reports lock, start-stream returns `-5`, samples exactly 100
times, stops the PHY best-effort and snapshots. -/
theorem hdmi_streamon_phy_lock_timeout_witness :
    (hdmi_streamon hdmi_probe_state envNeverLock).ret = -5 ∧
    countReads (hdmi_streamon hdmi_probe_state envNeverLock).trace = 100 ∧
    Event.phySetStream false ∈
      (hdmi_streamon hdmi_probe_state envNeverLock).trace ∧
    Event.dumpregs "hdmiphy - s_stream" ∈
      (hdmi_streamon hdmi_probe_state envNeverLock).trace :=
  (hdmi_streamon_phy_lock_timeout hdmi_probe_state envNeverLock).2
    rfl rfl (fun _ => by show (0 : Nat) &&& 1 = 0; decide)

lemma streamon_eq_conf (s : hdmi_device) (env : HdmiEnv)
    (h : (hdmi_conf_apply s env).ret ≠ 0) :
    hdmi_streamon s env = hdmi_conf_apply s env := by
  simp only [hdmi_streamon]
  rw [if_pos h]

lemma streamon_eq_phy_fail (s : hdmi_device) (env : HdmiEnv)
    (h0 : (hdmi_conf_apply s env).ret = 0)
    (h1 : env.phy_s_stream true ≠ 0) :
    hdmi_streamon s env =
      ⟨env.phy_s_stream true,
       (hdmi_conf_apply s env).trace ++ [Event.phySetStream true],
       (hdmi_conf_apply s env).dev⟩ := by
  simp only [hdmi_streamon]
  rw [if_neg (by simp [h0]), if_pos h1]

lemma streamon_eq_timeout (s : hdmi_device) (env : HdmiEnv)
    (h0 : (hdmi_conf_apply s env).ret = 0)
    (h1 : env.phy_s_stream true = 0)
    (h2 : (pollPhy env 0 100).1 = false) :
    hdmi_streamon s env =
      ⟨-5,
       (hdmi_conf_apply s env).trace ++ [Event.phySetStream true] ++
         (pollPhy env 0 100).2 ++
         [Event.phySetStream false, Event.dumpregs "hdmiphy - s_stream"],
       (hdmi_conf_apply s env).dev⟩ := by
  simp only [hdmi_streamon]
  rw [if_neg (by simp [h0]), if_neg (by simp [h1]), if_pos h2]

lemma streamon_eq_mhl_fail (s : hdmi_device) (env : HdmiEnv)
    (h0 : (hdmi_conf_apply s env).ret = 0)
    (h1 : env.phy_s_stream true = 0)
    (h2 : (pollPhy env 0 100).1 = true)
    (hm : env.mhl_present = true)
    (hms : env.mhl_s_stream true ≠ 0) :
    hdmi_streamon s env =
      ⟨-5,
       (hdmi_conf_apply s env).trace ++ [Event.phySetStream true] ++
         (pollPhy env 0 100).2 ++ [Event.mhlSetStream true] ++
         [Event.phySetStream false, Event.dumpregs "mhl - s_stream"],
       (hdmi_conf_apply s env).dev⟩ := by
  simp only [hdmi_streamon]
  rw [if_neg (by simp [h0]), if_neg (by simp [h1]), if_neg (by simp [h2]),
    if_pos hm, if_pos ⟨hm, hms⟩]

lemma streamon_eq_ok (s : hdmi_device) (env : HdmiEnv)
    (h0 : (hdmi_conf_apply s env).ret = 0)
    (h1 : env.phy_s_stream true = 0)
    (h2 : (pollPhy env 0 100).1 = true)
    (hok : ¬(env.mhl_present = true ∧ env.mhl_s_stream true ≠ 0)) :
    hdmi_streamon s env =
      ⟨0,
       (hdmi_conf_apply s env).trace ++ [Event.phySetStream true] ++
         (pollPhy env 0 100).2 ++
         (if env.mhl_present then [Event.mhlSetStream true] else []) ++
         streamonTail,
       (hdmi_conf_apply s env).dev⟩ := by
  simp only [hdmi_streamon]
  rw [if_neg (by simp [h0]), if_neg (by simp [h1]), if_neg (by simp [h2]),
    if_neg hok]

lemma no_setup_append (l1 l2 : List Event)
    (h1 : ∀ e ∈ l1, isStreamSetup e = false)
    (h2 : ∀ e ∈ l2, isStreamSetup e = false) :
    ∀ e ∈ l1 ++ l2, isStreamSetup e = false := by
  intro e he
  rcases List.mem_append.mp he with h | h
  · exact h1 e h
  · exact h2 e h

/-- C3: in every successful `hdmi_streamon` the trace ends with exactly
the shared-clock reparent sequence (disable, set parent to the
PHY-recovered clock, re-enable, in that order) followed by the
core-enable and timing-generator-enable writes, and the prefix before it
contains no reparent or enable action, does contain an observed PHY-lock
read, and (when a repeater is configured) the repeater stream-start;
when the repeater start fails instead, `hdmi_streamon` returns an error,
performs no reparent or enable action at all, and (when the repeater
stage was actually reached) returns `-EIO` with a best-effort PHY stop
in the trace. -/
theorem hdmi_streamon_ordering (s : hdmi_device) (env : HdmiEnv) :
    ((hdmi_streamon s env).ret = 0 →
      ∃ p, (hdmi_streamon s env).trace = p ++
          [Event.clkDisable .sclk_hdmi,
           Event.clkSetParent .sclk_hdmi .sclk_hdmiphy,
           Event.clkEnable .sclk_hdmi,
           Event.writeMask .HDMI_CON_0 allOnes HDMI_EN,
           Event.writeMask .HDMI_TG_CMD allOnes HDMI_TG_EN,
           Event.dumpregs "streamon"] ∧
        (∀ e ∈ p, isStreamSetup e = false) ∧
        (∃ v, Event.readPhyStatus v ∈ p ∧ v &&& HDMI_PHY_STATUS_READY ≠ 0) ∧
        (env.mhl_present = true → Event.mhlSetStream true ∈ p)) ∧
    (env.mhl_present = true → env.mhl_s_stream true ≠ 0 →
      (hdmi_streamon s env).ret ≠ 0 ∧
      (∀ e ∈ (hdmi_streamon s env).trace, isStreamSetup e = false) ∧
      (env.phy_s_dv_timings = 0 → env.phy_s_stream true = 0 →
        (pollPhy env 0 100).1 = true →
        (hdmi_streamon s env).ret = -5 ∧
        Event.phySetStream false ∈ (hdmi_streamon s env).trace)) := by
  have hsafe0 := conf_apply_no_setup s env
  have hsafep := pollPhy_no_setup env 0 100
  have s1 := all_no_setup_of [Event.phySetStream true] (by decide)
  have s2 := all_no_setup_of
    [Event.phySetStream false, Event.dumpregs "hdmiphy - s_stream"] (by decide)
  have s3 := all_no_setup_of
    [Event.phySetStream false, Event.dumpregs "mhl - s_stream"] (by decide)
  have s4 := all_no_setup_of [Event.mhlSetStream true] (by decide)
  have site : ∀ e ∈ (if env.mhl_present then [Event.mhlSetStream true]
      else []), isStreamSetup e = false := by
    by_cases hm : env.mhl_present = true
    · rw [if_pos hm]
      exact s4
    · rw [if_neg hm]
      intro e he
      cases he
  constructor
  · intro hr
    by_cases h0 : (hdmi_conf_apply s env).ret = 0
    · by_cases h1 : env.phy_s_stream true = 0
      · by_cases h2 : (pollPhy env 0 100).1 = true
        · by_cases hmf : env.mhl_present = true ∧ env.mhl_s_stream true ≠ 0
          · rw [streamon_eq_mhl_fail s env h0 h1 h2 hmf.1 hmf.2] at hr
            exact absurd hr (show ¬(-5 : Int) = 0 by decide)
          · rw [streamon_eq_ok s env h0 h1 h2 hmf]
            refine ⟨(hdmi_conf_apply s env).trace ++ [Event.phySetStream true] ++
              (pollPhy env 0 100).2 ++
              (if env.mhl_present then [Event.mhlSetStream true] else []),
              rfl, ?_, ?_, ?_⟩
            · exact no_setup_append _ _ (no_setup_append _ _
                (no_setup_append _ _ hsafe0 s1) hsafep) site
            · obtain ⟨v, hv, hb⟩ := pollPhy_locked_read env 0 100 h2
              exact ⟨v, by simp [hv], hb⟩
            · intro hm
              simp [hm]
        · rw [streamon_eq_timeout s env h0 h1 (by simpa using h2)] at hr
          exact absurd hr (show ¬(-5 : Int) = 0 by decide)
      · rw [streamon_eq_phy_fail s env h0 h1] at hr
        exact absurd hr h1
    · rw [streamon_eq_conf s env (by simpa using h0)] at hr
      exact absurd hr h0
  · intro hm hms
    by_cases h0 : (hdmi_conf_apply s env).ret = 0
    · by_cases h1 : env.phy_s_stream true = 0
      · by_cases h2 : (pollPhy env 0 100).1 = true
        · rw [streamon_eq_mhl_fail s env h0 h1 h2 hm hms]
          refine ⟨show (-5 : Int) ≠ 0 by decide, ?_, ?_⟩
          · exact no_setup_append _ _ (no_setup_append _ _ (no_setup_append _ _
              (no_setup_append _ _ hsafe0 s1) hsafep) s4) s3
          · intro _ _ _
            exact ⟨rfl, by simp⟩
        · rw [streamon_eq_timeout s env h0 h1 (by simpa using h2)]
          refine ⟨show (-5 : Int) ≠ 0 by decide, ?_, ?_⟩
          · exact no_setup_append _ _ (no_setup_append _ _
              (no_setup_append _ _ hsafe0 s1) hsafep) s2
          · intro _ _ hlock
            exact absurd hlock h2
      · rw [streamon_eq_phy_fail s env h0 h1]
        refine ⟨h1, ?_, ?_⟩
        · exact no_setup_append _ _ hsafe0 s1
        · intro _ hc _
          exact absurd hc h1
    · rw [streamon_eq_conf s env (by simpa using h0)]
      refine ⟨by simpa using h0, hsafe0, ?_⟩
      intro hc _ _
      exact absurd (conf_apply_ret_ok s env hc) h0

/-- Witness for C3: with an immediately-locking PHY and no repeater,
start-stream succeeds and its trace decomposes as claimed; with a
repeater whose stream-start fails, it returns `-5`, stops the PHY, and
performs no reparent or enable action. -/
theorem hdmi_streamon_ordering_witness :
    (∃ p, (hdmi_streamon hdmi_probe_state envAllOk).trace = p ++
        [Event.clkDisable .sclk_hdmi,
         Event.clkSetParent .sclk_hdmi .sclk_hdmiphy,
         Event.clkEnable .sclk_hdmi,
         Event.writeMask .HDMI_CON_0 allOnes HDMI_EN,
         Event.writeMask .HDMI_TG_CMD allOnes HDMI_TG_EN,
         Event.dumpregs "streamon"] ∧
      (∀ e ∈ p, isStreamSetup e = false) ∧
      (∃ v, Event.readPhyStatus v ∈ p ∧ v &&& HDMI_PHY_STATUS_READY ≠ 0) ∧
      (envAllOk.mhl_present = true → Event.mhlSetStream true ∈ p)) ∧
    ((hdmi_streamon hdmi_probe_state envMhlFail).ret = -5 ∧
     Event.phySetStream false ∈
       (hdmi_streamon hdmi_probe_state envMhlFail).trace ∧
     (∀ e ∈ (hdmi_streamon hdmi_probe_state envMhlFail).trace,
       isStreamSetup e = false)) := by
  constructor
  · exact (hdmi_streamon_ordering hdmi_probe_state envAllOk).1 (by decide)
  · obtain ⟨-, hsafe, hinner⟩ :=
      (hdmi_streamon_ordering hdmi_probe_state envMhlFail).2 rfl (by decide)
    obtain ⟨hret, hmem⟩ := hinner rfl rfl (by decide)
    exact ⟨hret, hmem, hsafe⟩


/-- C4: after `hdmi_conf_apply` on a dirty state, the dirty flag is
false iff the call returned success; in particular a PHY timings
rejection propagates the PHY's error and leaves the device state (dirty
flag included) untouched, while success clears dirty. -/
theorem hdmi_conf_apply_dirty_iff (s : hdmi_device) (env : HdmiEnv)
    (hd : s.cur_conf_dirty = true) :
    ((hdmi_conf_apply s env).ret = 0 ↔
      (hdmi_conf_apply s env).dev.cur_conf_dirty = false) ∧
    (env.phy_s_dv_timings ≠ 0 →
      (hdmi_conf_apply s env).ret = env.phy_s_dv_timings ∧
      (hdmi_conf_apply s env).dev = s) := by
  unfold hdmi_conf_apply
  rw [if_neg (by simp [hd])]
  by_cases hp : env.phy_s_dv_timings ≠ 0
  · rw [if_pos hp]
    constructor
    · refine ⟨fun h => absurd h hp, fun h => ?_⟩
      exact absurd (hd.symm.trans (show s.cur_conf_dirty = false from h))
        (by decide)
    · exact fun _ => ⟨rfl, rfl⟩
  · rw [if_neg hp]
    exact ⟨⟨fun _ => rfl, fun _ => rfl⟩, fun hc => absurd hc hp⟩

/-- Witness for C4: a rejected-timings apply on the dirty probe state
returns `-22` leaving the state untouched; a successful apply ends with
dirty cleared. -/
theorem hdmi_conf_apply_dirty_iff_witness :
    (hdmi_conf_apply hdmi_probe_state envPhyReject).ret = -22 ∧
    (hdmi_conf_apply hdmi_probe_state envPhyReject).dev = hdmi_probe_state ∧
    (hdmi_conf_apply hdmi_probe_state envAllOk).dev.cur_conf_dirty = false := by
  obtain ⟨-, himp⟩ := hdmi_conf_apply_dirty_iff hdmi_probe_state envPhyReject rfl
  obtain ⟨hret, hdev⟩ := himp (by decide)
  obtain ⟨hiff, -⟩ := hdmi_conf_apply_dirty_iff hdmi_probe_state envAllOk rfl
  exact ⟨hret, hdev, hiff.mp (by decide)⟩

/-- C5: `hdmi_conf_apply` on a non-dirty state is a no-op returning
success with an empty trace (no register write, PHY call, or delay) and
an unchanged state; consequently after any successful apply, a second
apply with no intervening set-timings performs nothing, so the register
sequence runs exactly once. -/
theorem hdmi_conf_apply_idempotent (s : hdmi_device) (env env2 : HdmiEnv) :
    (s.cur_conf_dirty = false → hdmi_conf_apply s env = ⟨0, [], s⟩) ∧
    ((hdmi_conf_apply s env).ret = 0 →
      hdmi_conf_apply (hdmi_conf_apply s env).dev env2 =
        ⟨0, [], (hdmi_conf_apply s env).dev⟩) := by
  have hbase : ∀ (s' : hdmi_device) (e : HdmiEnv),
      s'.cur_conf_dirty = false → hdmi_conf_apply s' e = ⟨0, [], s'⟩ := by
    intro s' e h
    unfold hdmi_conf_apply
    rw [if_pos h]
  constructor
  · intro h
    exact hbase s env h
  · intro hr
    have hdev : (hdmi_conf_apply s env).dev.cur_conf_dirty = false := by
      unfold hdmi_conf_apply at hr ⊢
      by_cases hd : s.cur_conf_dirty = false
      · rw [if_pos hd] at hr ⊢
        exact hd
      · rw [if_neg hd] at hr ⊢
        by_cases hp : env.phy_s_dv_timings ≠ 0
        · rw [if_pos hp] at hr
          exact absurd hr hp
        · rw [if_neg hp] at hr ⊢
    exact hbase _ env2 hdev

/-- Witness for C5: after a successful apply on the dirty probe state, a
second apply is a success-returning no-op with an empty trace. -/
theorem hdmi_conf_apply_idempotent_witness :
    hdmi_conf_apply (hdmi_conf_apply hdmi_probe_state envAllOk).dev envAllOk =
      ⟨0, [], (hdmi_conf_apply hdmi_probe_state envAllOk).dev⟩ :=
  (hdmi_conf_apply_idempotent hdmi_probe_state envAllOk envAllOk).2 (by decide)

/-- C6: `hdmi_streamoff` always returns success, leaves the device state
untouched, and its trace is exactly: clear core-enable, clear
timing-generator-enable, clock disable, reparent back to the pixel
source, clock re-enable, repeater stop (when a repeater is present), PHY
stop, diagnostic dump — in that order, for every oracle, in particular
whatever results the repeater/PHY stop calls would produce. -/
theorem hdmi_streamoff_order (s : hdmi_device) (env : HdmiEnv) :
    hdmi_streamoff s env =
      ⟨0,
       [Event.writeMask .HDMI_CON_0 0 HDMI_EN,
        Event.writeMask .HDMI_TG_CMD 0 HDMI_TG_EN,
        Event.clkDisable .sclk_hdmi,
        Event.clkSetParent .sclk_hdmi .sclk_pixel,
        Event.clkEnable .sclk_hdmi] ++
       (if env.mhl_present then [Event.mhlSetStream false] else []) ++
       [Event.phySetStream false, Event.dumpregs "streamoff"],
       s⟩ := rfl

/-- C7: a descriptor matching no catalog entry makes `hdmi_s_dv_timings`
fail with `-EINVAL` (= -22) and leaves the whole Mode Config State
unchanged, so a subsequent `hdmi_g_dv_timings` returns the same
descriptor as before the failed call. -/
theorem hdmi_s_dv_timings_no_match (s : hdmi_device) (d : v4l2_dv_timings)
    (h : ∀ e ∈ hdmi_timings_catalog,
      v4l2_match_dv_timings e.dv_timings d = false) :
    hdmi_s_dv_timings s d = (-22, s) ∧
    hdmi_g_dv_timings (hdmi_s_dv_timings s d).2 = hdmi_g_dv_timings s := by
  have hf : hdmi_timings_catalog.find?
      (fun e => v4l2_match_dv_timings e.dv_timings d) = none := by
    rw [List.find?_eq_none]
    intro x hx
    simp [h x hx]
  constructor
  · unfold hdmi_s_dv_timings
    rw [hf]
  · unfold hdmi_s_dv_timings
    rw [hf]

/-- Witness for C7: descriptor signature 100 matches no catalog entry;
set-timings fails with `-22` and the probe state is untouched. -/
theorem hdmi_s_dv_timings_no_match_witness :
    hdmi_s_dv_timings hdmi_probe_state ⟨100, 0⟩ =
      (-22, hdmi_probe_state) ∧
    hdmi_g_dv_timings (hdmi_s_dv_timings hdmi_probe_state ⟨100, 0⟩).2 =
      hdmi_g_dv_timings hdmi_probe_state :=
  hdmi_s_dv_timings_no_match hdmi_probe_state ⟨100, 0⟩ (by decide)

/-- C8: a successful set-timings with a descriptor first matched by
catalog entry `e`, followed by get-timings, returns the caller's exact
descriptor except that the can-reduce-fps flag bit is cleared (the rest
of the flags word and the timing signature surviving verbatim) iff the
entry's `reduced_fps` is false; when `reduced_fps` is true the
descriptor is returned completely verbatim. -/
theorem hdmi_s_dv_timings_roundtrip (s : hdmi_device) (d : v4l2_dv_timings)
    (e : hdmi_timings_entry)
    (h : hdmi_timings_catalog.find?
      (fun x => v4l2_match_dv_timings x.dv_timings d) = some e) :
    (hdmi_s_dv_timings s d).1 = 0 ∧
    hdmi_g_dv_timings (hdmi_s_dv_timings s d).2 =
      (if e.reduced_fps then d
       else { d with flags := d.flags &&& 0xfffffffd }) ∧
    (e.reduced_fps = true →
      hdmi_g_dv_timings (hdmi_s_dv_timings s d).2 = d) ∧
    (e.reduced_fps = false →
      (hdmi_g_dv_timings (hdmi_s_dv_timings s d).2).sig = d.sig ∧
      (hdmi_g_dv_timings (hdmi_s_dv_timings s d).2).flags &&&
        V4L2_DV_FL_CAN_REDUCE_FPS = 0) := by
  unfold hdmi_s_dv_timings hdmi_g_dv_timings
  rw [h]
  refine ⟨rfl, rfl, ?_, ?_⟩
  · intro hrf
    simp [hrf]
  · intro hrf
    simp only [hrf, if_false, Bool.false_eq_true]
    refine ⟨by trivial, ?_⟩
    show d.flags &&& 0xfffffffd &&& V4L2_DV_FL_CAN_REDUCE_FPS = 0
    rw [Nat.land_assoc]
    have hz : ((0xfffffffd : Nat) &&& V4L2_DV_FL_CAN_REDUCE_FPS) = 0 := by
      decide
    rw [hz]
    exact Nat.and_zero _

/-- Witness for C8: the 480p entry (`reduced_fps = false`) clears the
caller's can-reduce-fps bit; the 720p60 entry (`reduced_fps = true`)
echoes the caller's descriptor verbatim. -/
theorem hdmi_s_dv_timings_roundtrip_witness :
    hdmi_g_dv_timings (hdmi_s_dv_timings hdmi_probe_state ⟨0, 2⟩).2 =
      ⟨0, 0⟩ ∧
    hdmi_g_dv_timings (hdmi_s_dv_timings hdmi_probe_state ⟨3, 2⟩).2 =
      ⟨3, 2⟩ := by
  constructor
  · have h := hdmi_s_dv_timings_roundtrip hdmi_probe_state ⟨0, 2⟩
      ⟨false, V4L2_DV_BT_CEA_720X480P59_94, hdmi_timings_480p⟩ (by decide)
    rw [h.2.1]
    decide
  · have h := hdmi_s_dv_timings_roundtrip hdmi_probe_state ⟨3, 2⟩
      ⟨true, V4L2_DV_BT_CEA_1280X720P60, hdmi_timings_720p60⟩ (by decide)
    exact h.2.2.1 rfl

lemma hdmi_runtime_resume_dev (s : hdmi_device) (env : HdmiEnv) :
    (hdmi_runtime_resume s env).dev = s := by
  unfold hdmi_runtime_resume
  by_cases hr : (hdmi_resource_poweron env).1 < 0
  · rw [if_pos hr]
  · rw [if_neg hr]
    by_cases hm : env.mhl_present = true ∧ env.mhl_s_power true ≠ 0
    · rw [if_pos hm]
    · rw [if_neg hm]

/-- C9: the suspend handler sets the dirty flag; the resume handler
never changes the device state at all (in particular not the dirty
flag); hence after suspend followed by (successful or not) resume the
dirty flag is true and the next mode-apply runs the full nonempty
register sequence instead of the not-dirty no-op. -/
theorem hdmi_suspend_resume_dirty (s : hdmi_device) (env env2 env3 : HdmiEnv)
    (h3 : env3.phy_s_dv_timings = 0) :
    (hdmi_runtime_suspend s env).dev.cur_conf_dirty = true ∧
    (hdmi_runtime_resume s env2).dev.cur_conf_dirty = s.cur_conf_dirty ∧
    (hdmi_runtime_resume (hdmi_runtime_suspend s env).dev
      env2).dev.cur_conf_dirty = true ∧
    (hdmi_conf_apply (hdmi_runtime_resume (hdmi_runtime_suspend s env).dev
        env2).dev env3).trace =
      phyResetEvents ++ [Event.phySetTimings] ++ coreResetEvents ++
        hdmi_reg_init ++ hdmi_timing_apply s.cur_conf ∧
    (hdmi_conf_apply (hdmi_runtime_resume (hdmi_runtime_suspend s env).dev
        env2).dev env3).trace ≠ [] := by
  have hres := hdmi_runtime_resume_dev (hdmi_runtime_suspend s env).dev env2
  have htr : (hdmi_conf_apply (hdmi_runtime_resume
      (hdmi_runtime_suspend s env).dev env2).dev env3).trace =
      phyResetEvents ++ [Event.phySetTimings] ++ coreResetEvents ++
        hdmi_reg_init ++ hdmi_timing_apply s.cur_conf := by
    rw [hres]
    unfold hdmi_conf_apply
    rw [if_neg (by simp [hdmi_runtime_suspend]), if_neg (by simp [h3])]
    rfl
  refine ⟨rfl, ?_, ?_, htr, ?_⟩
  · rw [hdmi_runtime_resume_dev]
  · rw [hres]
    rfl
  · rw [htr]
    simp [phyResetEvents]

/-- Witness for C9: starting from a clean (dirty = false) probe state,
suspend then resume leaves dirty true and the next apply's trace is
nonempty. -/
theorem hdmi_suspend_resume_dirty_witness :
    (hdmi_runtime_suspend { hdmi_probe_state with cur_conf_dirty := false }
      envAllOk).dev.cur_conf_dirty = true ∧
    (hdmi_conf_apply (hdmi_runtime_resume (hdmi_runtime_suspend
        { hdmi_probe_state with cur_conf_dirty := false } envAllOk).dev
        envAllOk).dev envAllOk).trace ≠ [] := by
  obtain ⟨h1, -, -, -, h5⟩ := hdmi_suspend_resume_dirty
    { hdmi_probe_state with cur_conf_dirty := false } envAllOk envAllOk
    envAllOk rfl
  exact ⟨h1, h5⟩

lemma hdmi_streamon_dev (s : hdmi_device) (env : HdmiEnv) :
    (hdmi_streamon s env).dev = (hdmi_conf_apply s env).dev := by
  by_cases h0 : (hdmi_conf_apply s env).ret = 0
  · by_cases h1 : env.phy_s_stream true = 0
    · by_cases h2 : (pollPhy env 0 100).1 = true
      · by_cases hmf : env.mhl_present = true ∧ env.mhl_s_stream true ≠ 0
        · rw [streamon_eq_mhl_fail s env h0 h1 h2 hmf.1 hmf.2]
        · rw [streamon_eq_ok s env h0 h1 h2 hmf]
      · rw [streamon_eq_timeout s env h0 h1 (by simpa using h2)]
    · rw [streamon_eq_phy_fail s env h0 h1]
  · rw [streamon_eq_conf s env (by simpa using h0)]

/-- C10 as stated is false on the code: the runtime-suspend handler also
writes the Mode Config State (`hdev->cur_conf_dirty = 1`), so set-timings
and mode-apply are not the only operations that mutate it.  At a clean
(dirty = false) device, suspend alone changes the dirty flag. -/
theorem hdmi_mode_state_mutation_counterexample :
    (hdmi_runtime_suspend { hdmi_probe_state with cur_conf_dirty := false }
        envAllOk).dev.cur_conf_dirty ≠
      ({ hdmi_probe_state with cur_conf_dirty := false } :
        hdmi_device).cur_conf_dirty := by
  decide

/-- C10 amended: the Mode Config State is mutated only by set-timings
(which stores the matched entry's parameters and marks dirty), by
mode-apply (which at most clears dirty), and by the runtime-suspend
handler (which marks dirty); stream-off and resume leave the state
unchanged, stream-on changes it exactly as its embedded mode-apply does,
and a failing set-timings leaves the state unchanged. -/
theorem hdmi_mode_state_mutators (s : hdmi_device) (d : v4l2_dv_timings)
    (env : HdmiEnv) :
    (hdmi_streamoff s env).dev = s ∧
    (hdmi_runtime_resume s env).dev = s ∧
    (hdmi_streamon s env).dev = (hdmi_conf_apply s env).dev ∧
    (hdmi_runtime_suspend s env).dev = { s with cur_conf_dirty := true } ∧
    ((hdmi_s_dv_timings s d).1 ≠ 0 → (hdmi_s_dv_timings s d).2 = s) ∧
    ((hdmi_conf_apply s env).dev = s ∨
      (hdmi_conf_apply s env).dev = { s with cur_conf_dirty := false }) := by
  refine ⟨rfl, hdmi_runtime_resume_dev s env, hdmi_streamon_dev s env, rfl,
    ?_, ?_⟩
  · intro hne
    unfold hdmi_s_dv_timings at hne ⊢
    rcases hf : hdmi_timings_catalog.find?
        (fun e => v4l2_match_dv_timings e.dv_timings d) with _ | e
    · rw [hf]
    · rw [hf] at hne
      exact absurd rfl hne
  · unfold hdmi_conf_apply
    by_cases hd : s.cur_conf_dirty = false
    · rw [if_pos hd]
      left
      rfl
    · rw [if_neg hd]
      by_cases hp : env.phy_s_dv_timings ≠ 0
      · rw [if_pos hp]
        left
        rfl
      · rw [if_neg hp]
        right
        rfl

/-- Witness for the amended C10: on the probe state, stream-off leaves
the state unchanged and a failing set-timings (unmatched signature 100)
leaves it unchanged too. -/
theorem hdmi_mode_state_mutators_witness :
    (hdmi_streamoff hdmi_probe_state envAllOk).dev = hdmi_probe_state ∧
    (hdmi_s_dv_timings hdmi_probe_state ⟨100, 0⟩).2 = hdmi_probe_state := by
  obtain ⟨h1, -, -, -, h5, -⟩ :=
    hdmi_mode_state_mutators hdmi_probe_state ⟨100, 0⟩ envAllOk
  exact ⟨h1, h5 (by decide)⟩

end HdmiDrv
